import Mathlib

/-!
Verification development for the Notion-to-markdown converter
(`src/backend/utils/notion_client.go`).

The Go client is shallowly embedded as follows.

* The remote content gateway (the `notionapi.Client` plus the raw HTTP
  image-resource endpoint) is an abstract record of functions
  (`Gateway`): block fetch, one page of the children listing, and the
  image-resource lookup.  Fallible network calls return `Except String`,
  the error carrying the Go error message text.
* A Notion block (the `notionapi.Block` interface value together with
  the kind-specific payload fields the client reads) is the flat
  structure `Block`; the type-switch of the Go code reads the payload
  field matching the kind tag.
* Recursive Go functions (`getBlock`, and `BlockToMarkdown` through the
  table case) take a fuel parameter; the Go recursion has no bound, and
  every theorem is stated at a successor fuel value, so the fuel only
  truncates gateway data deeper than the fuel.
* Logging is immaterial to the returned values and is not modelled.
-/

namespace NotionMd

/-- Decidable equality for `Except`, used to evaluate concrete runs. -/
instance {ε α : Type} [DecidableEq ε] [DecidableEq α] : DecidableEq (Except ε α) := fun a b =>
  match a, b with
  | Except.error e, Except.error f =>
    if h : e = f then isTrue (by rw [h]) else isFalse (fun hh => by injection hh; exact h (by assumption))
  | Except.error _, Except.ok _ => isFalse (fun hh => Except.noConfusion hh)
  | Except.ok _, Except.error _ => isFalse (fun hh => Except.noConfusion hh)
  | Except.ok x, Except.ok y =>
    if h : x = y then isTrue (by rw [h]) else isFalse (fun hh => by injection hh; exact h (by assumption))

/-- The kind tag of a Notion block (`notionapi.BlockType`).  The listed
constructors are the ones the Go type-switch names; `unsupported` is
`notionapi.BlockTypeUnsupported`, and `other` stands for any further
kind, which falls to the default arm of the switch. -/
inductive BlockType where
  | heading1
  | heading2
  | heading3
  | paragraph
  | bulletedListItem
  | numberedListItem
  | toggle
  | quote
  | code
  | tableRow
  | table
  | divider
  | video
  | embed
  | callout
  | toDo
  | image
  | unsupported
  | other
deriving DecidableEq, Repr

/-- A Notion block as the Go client reads it: id, parent block id
(`GetParent().BlockID`), the has-children flag, the kind tag, and the
kind-specific payload fields.  `richText` is `GetRichTextString()`;
`cells` holds, per table-row cell, the plain texts of its rich-text
runs; `hasRowHeader` is the table payload flag; `mediaURL` is the url
the video arm reads; `embedURL` the embed payload url; `checked` the
to-do checkbox. -/
structure Block where
  id : String := ""
  parentId : String := ""
  hasChildren : Bool := false
  type : BlockType := BlockType.other
  richText : String := ""
  cells : List (List String) := []
  hasRowHeader : Bool := false
  mediaURL : String := ""
  embedURL : String := ""
  checked : Bool := false
deriving DecidableEq, Repr

/-- The remote content gateway consumed by the client: single block
fetch (`client.Block.Get`), one page of the paginated children listing
(`client.Block.GetChildren`, taking the start cursor and returning the
results of that page together with the next cursor, if any), and the
raw image-resource lookup (the authenticated HTTP GET of the blocks
endpoint plus the JSON decode of the nested image.file.url shape,
performed by `getImageURL`). -/
structure Gateway where
  getBlockF : String → Except String Block
  getChildrenPage : String → Option String → Except String (List Block × Option String)
  getImageResource : String → Except String String

/-- The children-listing call exactly as every call site in the Go file
makes it: `GetChildren(ctx, id, &notionapi.Pagination{})`, i.e. a single
request with an empty start cursor, keeping only the `Results` field of
the response and ignoring the continuation cursor. -/
def getChildrenCall (gw : Gateway) (id : String) : Except String (List Block) :=
  match gw.getChildrenPage id none with
  | Except.error e => Except.error e
  | Except.ok pr => Except.ok pr.1

/-- The children listing drained to completion by following
continuation cursors until none is returned.  This follows the words of
the specification (drain the paginated children listing, following
continuation cursors until exhausted); it is NOT what the Go code does,
and exists to compare the code against the specification.  The fuel
bounds the cursor chain. -/
def drainedChildrenListing (gw : Gateway) : Nat → String → Option String → Except String (List Block)
  | 0, _, _ => Except.error "cursor chain too long"
  | fuel + 1, id, cursor =>
    match gw.getChildrenPage id cursor with
    | Except.error e => Except.error e
    | Except.ok pr =>
      match pr.2 with
      | none => Except.ok pr.1
      | some next =>
        match drainedChildrenListing gw fuel id (some next) with
        | Except.error e => Except.error e
        | Except.ok more => Except.ok (pr.1 ++ more)

/-- The sibling scan of `getNumberedListNumber`: walk the children in
order with counter `i`; at the first child whose id equals the target
id return `i + 1`; otherwise bump `i` when the child is a numbered list
item; if the target never appears, return the final counter. -/
def numberedScan (targetId : String) : List Block → Nat → Nat
  | [], i => i
  | c :: rest, i =>
    if c.id = targetId then i + 1
    else numberedScan targetId rest (if c.type = BlockType.numberedListItem then i + 1 else i)

/-- `getNumberedListNumber`: fetch the children of the parent of the
block with a single children-listing call; on error default to 1; else
scan the children for the ordinal. -/
def getNumberedListNumber (gw : Gateway) (block : Block) : Nat :=
  match getChildrenCall gw block.parentId with
  | Except.error _ => 1
  | Except.ok children => numberedScan block.id children 0

/-- `getImageURL`: the dedicated raw-resource lookup for an image
block.  The Go function builds the blocks-endpoint URL from the block
id, performs an authenticated HTTP GET and decodes the nested
`image.file.url` JSON shape; the gateway field `getImageResource`
stands for that whole request-and-decode, its error case covering both
transport and decode failures. -/
def getImageURL (gw : Gateway) (block : Block) : Except String String :=
  gw.getImageResource block.id

/-- The cell loop of the table-row arm: each cell contributes the plain
text of its first rich-text run (nothing when the cell is empty), and
cells other than the last are followed by a mid separator. -/
def renderCells : List (List String) → String
  | [] => ""
  | [c] => c.headD ""
  | c :: rest => (c.headD "" ++ " | ") ++ renderCells rest

/-- The header separator written by the table arm after the first row:
the group emitted once per loop iteration, `n` times, then the closing
pipe and newline. -/
def headerSep (n : Nat) : String :=
  String.join (List.replicate n "| ---") ++ "|\n"

/-- The row loop of the table arm: render each child with the given
renderer; immediately after the row at index 0, when the table declares
a row header, write the separator sized from that first row
(`cells + 1` groups). -/
def tableRowsGo (render : Block → String) (hasRow : Bool) : Nat → List Block → String
  | _, [] => ""
  | i, temp :: rest =>
    (render temp ++ (if i = 0 ∧ hasRow then headerSep (temp.cells.length + 1) else "")) ++
      tableRowsGo render hasRow (i + 1) rest

/-- `BlockToMarkdown`: the type-switch mapping one block to its
markdown fragment.  The numbered arm asks `getNumberedListNumber` for
the ordinal; the table arm refetches the children of the block (the Go
code discards the error of that call with a blank assignment, so the
error case of the call is modelled as yielding no rows, the only
response shape this repository determines); the image arm goes through
`getImageURL` and degrades to the error message.  The fuel bounds the
table recursion only. -/
def BlockToMarkdown (gw : Gateway) : Nat → Block → String
  | 0, _ => ""
  | fuel + 1, block =>
    match block.type with
    | BlockType.heading1 => ("# " ++ block.richText) ++ "\n"
    | BlockType.paragraph => block.richText ++ "\n"
    | BlockType.heading2 => ("## " ++ block.richText) ++ "\n"
    | BlockType.heading3 => ("### " ++ block.richText) ++ "\n"
    | BlockType.bulletedListItem => ("- " ++ block.richText) ++ "\n"
    | BlockType.numberedListItem =>
      ((toString (getNumberedListNumber gw block) ++ ". ") ++ block.richText) ++ "\n"
    | BlockType.toggle => ("::: toggle\n" ++ block.richText) ++ "\n:::\n"
    | BlockType.quote => ("> " ++ block.richText) ++ "\n"
    | BlockType.code => ("```\n" ++ block.richText) ++ "\n```\n"
    | BlockType.tableRow => ("| " ++ renderCells block.cells) ++ " |\n"
    | BlockType.table =>
      match getChildrenCall gw block.id with
      | Except.error _ => tableRowsGo (BlockToMarkdown gw fuel) block.hasRowHeader 0 []
      | Except.ok rows => tableRowsGo (BlockToMarkdown gw fuel) block.hasRowHeader 0 rows
    | BlockType.divider => "---\n"
    | BlockType.video =>
      ("<iframe src=\"" ++ block.mediaURL) ++
        "\" width=\"300\" height=\"200\" frameborder=\"0\" allowfullscreen></iframe>"
    | BlockType.embed => ("\x7b" ++ block.embedURL) ++ "\x7d"
    | BlockType.callout => ("⚠️ " ++ block.richText) ++ "\n"
    | BlockType.toDo =>
      if block.checked then ("- [x] " ++ block.richText) ++ "\n"
      else ("- [ ] " ++ block.richText) ++ "\n"
    | BlockType.image =>
      match getImageURL gw block with
      | Except.error e => e
      | Except.ok url => ("![](" ++ url) ++ ")\n"
    | _ => ""

/-- The value a caller of `getBlock` appends for one child: the bytes
of a successful run, and the empty byte slice that accompanies every
error return of `getBlock`. -/
def orEmpty : Except String String → String
  | Except.ok s => s
  | Except.error _ => ""

/-- `getBlock`: fetch the block (failure is fatal for the subtree,
wrapped with the block id); an unsupported block yields empty output
without error; a block without children yields its own fragment; a
block with children makes one children-listing call (failure again
fatal, wrapped with the id) and concatenates the recursive output of
every child in listing order, a failing child contributing its empty
byte slice.  The fuel bounds the recursion depth. -/
def getBlock (gw : Gateway) : Nat → String → Except String String
  | 0, _ => Except.ok ""
  | fuel + 1, id =>
    match gw.getBlockF id with
    | Except.error e => Except.error ("get block " ++ (id ++ (" error: " ++ e)))
    | Except.ok b =>
      if b.type = BlockType.unsupported then Except.ok ""
      else if b.hasChildren = false then Except.ok (BlockToMarkdown gw (fuel + 1) b)
      else
        match getChildrenCall gw id with
        | Except.error e => Except.error ("get block's children " ++ (id ++ (" error: " ++ e)))
        | Except.ok children =>
          Except.ok (children.foldl (fun acc c => acc ++ orEmpty (getBlock gw fuel c.id)) "")

/-- `domain.PageInfo`: the (id, title) record produced by the search. -/
structure PageInfo where
  id : String
  title : String
deriving DecidableEq, Repr

/-- `domain.Page`: the final rendered page record. -/
structure Page where
  id : String
  title : String
  content : String
deriving DecidableEq, Repr

/-- `getPageContent`: run the tree walker at the page id and wrap a
failure with the page id; keep the given title. -/
def getPageContent (gw : Gateway) (fuel : Nat) (p : PageInfo) : Except String Page :=
  match getBlock gw fuel p.id with
  | Except.error e => Except.error ("get Page " ++ (p.id ++ (" error: " ++ e)))
  | Except.ok buf => Except.ok (Page.mk p.id p.title buf)

/-- `GetPagesContent`: assemble the pages in order; the first failing
page aborts the whole batch with an error wrapped with that page id. -/
def GetPagesContent (gw : Gateway) (fuel : Nat) : List PageInfo → Except String (List Page)
  | [] => Except.ok []
  | p :: rest =>
    match getPageContent gw fuel p with
    | Except.error e => Except.error ("get Pages " ++ (p.id ++ (" error: " ++ e)))
    | Except.ok pg =>
      match GetPagesContent gw fuel rest with
      | Except.error e => Except.error e
      | Except.ok pgs => Except.ok (pg :: pgs)

/-- A property of a page object in a search result, as the title
resolution reads it: either a title-typed property with the plain texts
of its rich-text runs, or a property of any other type. -/
inductive PageProperty where
  | titleProp (runs : List String)
  | otherProp
deriving DecidableEq, Repr

/-- One entry of the search response: a page object with its property
map, a block object (only the id is read), a database object (only the
id is read; the title the remote object carries is never read by the Go
code and is recorded here to state that fact), or an object of any
other kind. -/
inductive SearchObject where
  | page (id : String) (properties : List (String × PageProperty))
  | blockObj (id : String)
  | database (id : String) (title : String)
  | otherObj
deriving DecidableEq, Repr

/-- The title resolution of the page arm of `GetList`: the property
named title, when it is title-typed, gives the plain text of its first
run (empty when it has no runs, without falling through); otherwise the
property named Name is tried the same way; otherwise empty. -/
def resolvePageTitle (props : List (String × PageProperty)) : String :=
  match List.lookup "title" props with
  | some (PageProperty.titleProp runs) => runs.headD ""
  | _ =>
    match List.lookup "Name" props with
    | some (PageProperty.titleProp runs) => runs.headD ""
    | _ => ""

/-- The per-entry switch of `GetList`: the (id, title) pair each loop
iteration computes before the nonempty-title filter. -/
def searchEntry : SearchObject → PageInfo
  | SearchObject.page id props => PageInfo.mk id (resolvePageTitle props)
  | SearchObject.blockObj id => PageInfo.mk id ""
  | SearchObject.database id _ => PageInfo.mk id ""
  | SearchObject.otherObj => PageInfo.mk "" ""

/-- `GetList` over a search response: keep, in response order, every
entry whose resolved title is nonempty. -/
def GetList : List SearchObject → List PageInfo
  | [] => []
  | r :: rest =>
    if (searchEntry r).title ≠ "" then searchEntry r :: GetList rest
    else GetList rest

/-- Specification-side record for one search entry, following the words
of the specification for the amended claim: only page objects with a
resolvable title contribute. -/
def specTitledPageRecord : SearchObject → Option PageInfo
  | SearchObject.page id props =>
    if resolvePageTitle props = "" then none
    else some (PageInfo.mk id (resolvePageTitle props))
  | _ => none

/-- In-order concatenation of rendered fragments. -/
def joinMap (f : Block → String) : List Block → String
  | [] => ""
  | c :: rest => f c ++ joinMap f rest

theorem joinMap_append (f : Block → String) (l₁ l₂ : List Block) :
    joinMap f (l₁ ++ l₂) = joinMap f l₁ ++ joinMap f l₂ := by
  induction l₁ with
  | nil => simp [joinMap]
  | cons c rest ih => simp [joinMap, ih, String.append_assoc]

theorem foldl_append_eq (f : Block → String) :
    ∀ (l : List Block) (s : String),
      l.foldl (fun acc c => acc ++ f c) s = s ++ joinMap f l := by
  intro l
  induction l with
  | nil => intro s; simp [joinMap]
  | cons c rest ih => intro s; simp [List.foldl, joinMap, ih, String.append_assoc]

theorem tableRowsGo_tail (render : Block → String) (hasRow : Bool) :
    ∀ (l : List Block) (i : Nat), tableRowsGo render hasRow (i + 1) l = joinMap render l := by
  intro l
  induction l with
  | nil => intro i; rfl
  | cons temp rest ih =>
    intro i
    simp [tableRowsGo, joinMap, ih (i + 1)]

theorem numberedScan_not_found (t : String) :
    ∀ (l : List Block) (i : Nat), (∀ x ∈ l, x.id ≠ t) →
      numberedScan t l i = i + l.countP (fun c => c.type == BlockType.numberedListItem) := by
  intro l
  induction l with
  | nil => intro i _; simp [numberedScan]
  | cons c rest ih =>
    intro i h
    have hc : c.id ≠ t := h c (List.mem_cons_self c rest)
    have hrest : ∀ x ∈ rest, x.id ≠ t := fun x hx => h x (List.mem_cons_of_mem c hx)
    simp only [numberedScan, if_neg hc]
    rw [ih _ hrest]
    by_cases hn : c.type = BlockType.numberedListItem
    · simp [hn, List.countP_cons]; omega
    · simp [hn, List.countP_cons]

theorem numberedScan_found (t : String) (tb : Block) (l₂ : List Block) (ht : tb.id = t) :
    ∀ (l₁ : List Block) (i : Nat), (∀ x ∈ l₁, x.id ≠ t) →
      numberedScan t (l₁ ++ tb :: l₂) i =
        i + l₁.countP (fun c => c.type == BlockType.numberedListItem) + 1 := by
  intro l₁
  induction l₁ with
  | nil => intro i _; simp [numberedScan, ht]
  | cons c rest ih =>
    intro i h
    have hc : c.id ≠ t := h c (List.mem_cons_self c rest)
    have hrest : ∀ x ∈ rest, x.id ≠ t := fun x hx => h x (List.mem_cons_of_mem c hx)
    simp only [List.cons_append, numberedScan, if_neg hc, List.append_eq]
    rw [ih _ hrest]
    by_cases hn : c.type = BlockType.numberedListItem
    · simp [hn, List.countP_cons]; omega
    · simp [hn, List.countP_cons]

theorem getBlock_root_error (gw : Gateway) (fuel : Nat) (id e : String)
    (h : gw.getBlockF id = Except.error e) :
    getBlock gw (fuel + 1) id = Except.error ("get block " ++ (id ++ (" error: " ++ e))) := by
  simp [getBlock, h]

theorem getBlock_leaf (gw : Gateway) (fuel : Nat) (id : String) (b : Block)
    (hb : gw.getBlockF id = Except.ok b) (hu : b.type ≠ BlockType.unsupported)
    (hc : b.hasChildren = false) :
    getBlock gw (fuel + 1) id = Except.ok (BlockToMarkdown gw (fuel + 1) b) := by
  simp [getBlock, hb, hu, hc]

theorem getBlock_children (gw : Gateway) (fuel : Nat) (id : String) (b : Block) (l : List Block)
    (hb : gw.getBlockF id = Except.ok b) (hu : b.type ≠ BlockType.unsupported)
    (hc : b.hasChildren = true) (hl : getChildrenCall gw id = Except.ok l) :
    getBlock gw (fuel + 1) id =
      Except.ok (joinMap (fun c => orEmpty (getBlock gw fuel c.id)) l) := by
  simp [getBlock, hb, hu, hc, hl, foldl_append_eq]

/-! Concrete fixtures used by counterexamples and witnesses. -/

/-- Fixture: paragraph with one child paragraph. -/
def pBlk : Block := { id := "p", hasChildren := true, type := BlockType.paragraph, richText := "Hello" }

/-- Fixture: leaf child paragraph of `pBlk`. -/
def cBlk : Block := { id := "c", type := BlockType.paragraph, richText := "World" }

/-- Fixture gateway for the subtree-shape claims. -/
def gw1 : Gateway :=
  { getBlockF := fun id =>
      if id = "p" then Except.ok pBlk
      else if id = "c" then Except.ok cBlk
      else Except.error "not found",
    getChildrenPage := fun id _ =>
      if id = "p" then Except.ok ([cBlk], none) else Except.ok ([], none),
    getImageResource := fun _ => Except.error "no image" }

/-- Fixture: root paragraph whose children listing has two pages. -/
def rBlk : Block := { id := "r", hasChildren := true, type := BlockType.paragraph, richText := "R" }

/-- Fixture: first-page child. -/
def c1Blk : Block := { id := "c1", type := BlockType.paragraph, richText := "A" }

/-- Fixture: second-page child, reachable only through the cursor. -/
def c2Blk : Block := { id := "c2", type := BlockType.paragraph, richText := "B" }

/-- Fixture gateway whose children listing for `r` is paginated in two
pages joined by cursor `k`. -/
def gw2 : Gateway :=
  { getBlockF := fun id =>
      if id = "r" then Except.ok rBlk
      else if id = "c1" then Except.ok c1Blk
      else if id = "c2" then Except.ok c2Blk
      else Except.error "not found",
    getChildrenPage := fun id cur =>
      if id = "r" then
        match cur with
        | none => Except.ok ([c1Blk], some "k")
        | some k => if k = "k" then Except.ok ([c2Blk], none) else Except.ok ([], none)
      else Except.ok ([], none),
    getImageResource := fun _ => Except.error "no image" }

/-- Fixture gateway agreeing with `gw2` on every first page of every
children listing but returning nothing at any continuation cursor. -/
def gw2b : Gateway :=
  { getBlockF := gw2.getBlockF,
    getChildrenPage := fun id cur =>
      match cur with
      | none => gw2.getChildrenPage id none
      | some _ => Except.ok ([], none),
    getImageResource := gw2.getImageResource }

/-- Fixture: root with three children, the middle one failing. -/
def rootBlk3 : Block :=
  { id := "r3", hasChildren := true, type := BlockType.paragraph, richText := "Root" }

/-- Fixture: first sibling. -/
def aBlk : Block := { id := "a3", type := BlockType.paragraph, richText := "A" }

/-- Fixture: middle sibling whose own fetch fails. -/
def bBlk : Block := { id := "b3", type := BlockType.paragraph, richText := "B" }

/-- Fixture: last sibling. -/
def cBlk3 : Block := { id := "c3", type := BlockType.paragraph, richText := "C" }

/-- Fixture gateway for the error-asymmetry claim. -/
def gw3 : Gateway :=
  { getBlockF := fun id =>
      if id = "r3" then Except.ok rootBlk3
      else if id = "a3" then Except.ok aBlk
      else if id = "b3" then Except.error "boom"
      else if id = "c3" then Except.ok cBlk3
      else Except.error "not found",
    getChildrenPage := fun id _ =>
      if id = "r3" then Except.ok ([aBlk, bBlk, cBlk3], none) else Except.ok ([], none),
    getImageResource := fun _ => Except.error "no image" }

/-- Fixture: first numbered sibling. -/
def itemA : Block :=
  { id := "ia", parentId := "par", type := BlockType.numberedListItem, richText := "alpha" }

/-- Fixture: non-numbered sibling between the numbered ones. -/
def paraX : Block :=
  { id := "pp", parentId := "par", type := BlockType.paragraph, richText := "mid" }

/-- Fixture: second numbered sibling, the target of the ordinal query. -/
def itemB : Block :=
  { id := "ib", parentId := "par", type := BlockType.numberedListItem, richText := "beta" }

/-- Fixture: third numbered sibling. -/
def itemC : Block :=
  { id := "ic", parentId := "par", type := BlockType.numberedListItem, richText := "gamma" }

/-- Fixture gateway for the numbering claims. -/
def gw4 : Gateway :=
  { getBlockF := fun _ => Except.error "not found",
    getChildrenPage := fun id _ =>
      if id = "par" then Except.ok ([itemA, paraX, itemB, itemC], none)
      else Except.ok ([], none),
    getImageResource := fun _ => Except.error "no image" }

/-- Fixture: a table block declaring a row header. -/
def tblBlk : Block :=
  { id := "tbl", hasChildren := true, type := BlockType.table, hasRowHeader := true }

/-- Fixture: header row with three cells. -/
def row0 : Block :=
  { id := "r0", parentId := "tbl", type := BlockType.tableRow,
    cells := [["h1"], ["h2"], ["h3"]] }

/-- Fixture: body row with three cells. -/
def row1 : Block :=
  { id := "r1", parentId := "tbl", type := BlockType.tableRow,
    cells := [["a"], ["b"], ["c"]] }

/-- Fixture gateway for the table claim. -/
def gw5 : Gateway :=
  { getBlockF := fun _ => Except.error "not found",
    getChildrenPage := fun id _ =>
      if id = "tbl" then Except.ok ([row0, row1], none) else Except.ok ([], none),
    getImageResource := fun _ => Except.error "no image" }

/-- Fixture: the mocked search result set of the specification, with
the same page repeated once more to probe de-duplication: a page titled
Roadmap, a block with no resolvable title, a database titled Road
Trips, and the Roadmap page again. -/
def setC6 : List SearchObject :=
  [SearchObject.page "p1" [("title", PageProperty.titleProp ["Roadmap"])],
   SearchObject.blockObj "b1",
   SearchObject.database "d1" "Road Trips",
   SearchObject.page "p1" [("title", PageProperty.titleProp ["Roadmap"])]]

/-- Fixture: leaf paragraph for the batch claim. -/
def xBlk : Block := { id := "x", type := BlockType.paragraph, richText := "Xbody" }

/-- Fixture gateway for the batch claim: page `x` renders, page `y`
fails to fetch. -/
def gwP : Gateway :=
  { getBlockF := fun id =>
      if id = "x" then Except.ok xBlk
      else Except.error "boom",
    getChildrenPage := fun _ _ => Except.ok ([], none),
    getImageResource := fun _ => Except.error "no image" }

/-- Fixture: numbered list item whose parent listing cannot be
fetched. -/
def nbBlk : Block :=
  { id := "nb", parentId := "par", type := BlockType.numberedListItem, richText := "Item" }

/-- Fixture gateway whose children listing always fails. -/
def gw8 : Gateway :=
  { getBlockF := fun _ => Except.error "not found",
    getChildrenPage := fun _ _ => Except.error "boom",
    getImageResource := fun _ => Except.error "no image" }

/-- Fixture: an image block. -/
def imgBlk : Block := { id := "img", type := BlockType.image }

/-- Fixture gateway resolving the image resource of `img`. -/
def gw9 : Gateway :=
  { getBlockF := fun _ => Except.error "not found",
    getChildrenPage := fun _ _ => Except.ok ([], none),
    getImageResource := fun id =>
      if id = "img" then Except.ok "https://x/y.png" else Except.error "no image" }

/-- Fixture gateway whose image-resource lookup fails. -/
def gw9e : Gateway :=
  { getBlockF := fun _ => Except.error "not found",
    getChildrenPage := fun _ _ => Except.ok ([], none),
    getImageResource := fun _ => Except.error "lookup failed" }

/-- Fixture: the only child the listing of `par2` returns, a paragraph
that is not the queried block. -/
def pxBlk : Block := { id := "q", parentId := "par2", type := BlockType.paragraph }

/-- Fixture: numbered item absent from the listing of its parent. -/
def tBlk10 : Block :=
  { id := "nb2", parentId := "par2", type := BlockType.numberedListItem, richText := "lost" }

/-- Fixture gateway for the absent-target numbering claim. -/
def gw10 : Gateway :=
  { getBlockF := fun _ => Except.error "not found",
    getChildrenPage := fun id _ =>
      if id = "par2" then Except.ok ([pxBlk], none) else Except.ok ([], none),
    getImageResource := fun _ => Except.error "no image" }

/-! Arm-unfolding lemmas for the renderer, one per arm the claims
touch, proved by reducing the type-switch on a destructured block. -/

theorem blockToMarkdown_default (gw : Gateway) (fuel : Nat) (b : Block)
    (ht : b.type = BlockType.unsupported ∨ b.type = BlockType.other) :
    BlockToMarkdown gw (fuel + 1) b = "" := by
  rcases b with ⟨bid, bpar, bhc, bty, brt, bcells, bhdr, bmu, beu, bck⟩
  rcases ht with h | h
  · have h2 : bty = BlockType.unsupported := h
    subst h2
    rfl
  · have h2 : bty = BlockType.other := h
    subst h2
    rfl

theorem blockToMarkdown_numbered (gw : Gateway) (fuel : Nat) (b : Block)
    (ht : b.type = BlockType.numberedListItem) :
    BlockToMarkdown gw (fuel + 1) b =
      ((toString (getNumberedListNumber gw b) ++ ". ") ++ b.richText) ++ "\n" := by
  rcases b with ⟨bid, bpar, bhc, bty, brt, bcells, bhdr, bmu, beu, bck⟩
  have h2 : bty = BlockType.numberedListItem := ht
  subst h2
  rfl

theorem blockToMarkdown_image_ok (gw : Gateway) (fuel : Nat) (b : Block) (u : String)
    (ht : b.type = BlockType.image) (hu : gw.getImageResource b.id = Except.ok u) :
    BlockToMarkdown gw (fuel + 1) b = ("![](" ++ u) ++ ")\n" := by
  rcases b with ⟨bid, bpar, bhc, bty, brt, bcells, bhdr, bmu, beu, bck⟩
  have h2 : bty = BlockType.image := ht
  subst h2
  have hu2 : gw.getImageResource bid = Except.ok u := hu
  show (match getImageURL gw ⟨bid, bpar, bhc, BlockType.image, brt, bcells, bhdr, bmu, beu, bck⟩ with
        | Except.error e => e
        | Except.ok url => ("![](" ++ url) ++ ")\n") = ("![](" ++ u) ++ ")\n"
  rw [show getImageURL gw ⟨bid, bpar, bhc, BlockType.image, brt, bcells, bhdr, bmu, beu, bck⟩
      = Except.ok u from hu2]

theorem blockToMarkdown_image_error (gw : Gateway) (fuel : Nat) (b : Block) (e : String)
    (ht : b.type = BlockType.image) (he : gw.getImageResource b.id = Except.error e) :
    BlockToMarkdown gw (fuel + 1) b = e := by
  rcases b with ⟨bid, bpar, bhc, bty, brt, bcells, bhdr, bmu, beu, bck⟩
  have h2 : bty = BlockType.image := ht
  subst h2
  have he2 : gw.getImageResource bid = Except.error e := he
  show (match getImageURL gw ⟨bid, bpar, bhc, BlockType.image, brt, bcells, bhdr, bmu, beu, bck⟩ with
        | Except.error e => e
        | Except.ok url => ("![](" ++ url) ++ ")\n") = e
  rw [show getImageURL gw ⟨bid, bpar, bhc, BlockType.image, brt, bcells, bhdr, bmu, beu, bck⟩
      = Except.error e from he2]

theorem blockToMarkdown_tableRow (gw : Gateway) (fuel : Nat) (b : Block)
    (ht : b.type = BlockType.tableRow) :
    BlockToMarkdown gw (fuel + 1) b = ("| " ++ renderCells b.cells) ++ " |\n" := by
  rcases b with ⟨bid, bpar, bhc, bty, brt, bcells, bhdr, bmu, beu, bck⟩
  have h2 : bty = BlockType.tableRow := ht
  subst h2
  rfl

theorem blockToMarkdown_table (gw : Gateway) (fuel : Nat) (b : Block) (rows : List Block)
    (ht : b.type = BlockType.table) (hc : getChildrenCall gw b.id = Except.ok rows) :
    BlockToMarkdown gw (fuel + 1) b
      = tableRowsGo (BlockToMarkdown gw fuel) b.hasRowHeader 0 rows := by
  rcases b with ⟨bid, bpar, bhc, bty, brt, bcells, bhdr, bmu, beu, bck⟩
  have h2 : bty = BlockType.table := ht
  subst h2
  show (match getChildrenCall gw bid with
        | Except.error _ => tableRowsGo (BlockToMarkdown gw fuel) bhdr 0 []
        | Except.ok rows => tableRowsGo (BlockToMarkdown gw fuel) bhdr 0 rows)
      = tableRowsGo (BlockToMarkdown gw fuel) bhdr 0 rows
  rw [show getChildrenCall gw bid = Except.ok rows from hc]

theorem blockToMarkdown_table_error (gw : Gateway) (fuel : Nat) (b : Block) (e : String)
    (ht : b.type = BlockType.table) (hc : getChildrenCall gw b.id = Except.error e) :
    BlockToMarkdown gw (fuel + 1) b = "" := by
  rcases b with ⟨bid, bpar, bhc, bty, brt, bcells, bhdr, bmu, beu, bck⟩
  have h2 : bty = BlockType.table := ht
  subst h2
  show (match getChildrenCall gw bid with
        | Except.error _ => tableRowsGo (BlockToMarkdown gw fuel) bhdr 0 []
        | Except.ok rows => tableRowsGo (BlockToMarkdown gw fuel) bhdr 0 rows)
      = ""
  rw [show getChildrenCall gw bid = Except.error e from hc]
  rfl

theorem tableRowsGo_head (render : Block → String) (hasRow : Bool) (temp : Block)
    (rest : List Block) :
    tableRowsGo render hasRow 0 (temp :: rest) =
      (render temp ++ (if hasRow then headerSep (temp.cells.length + 1) else "")) ++
        joinMap render rest := by
  show (render temp ++ (if 0 = 0 ∧ hasRow then headerSep (temp.cells.length + 1) else "")) ++
      tableRowsGo render hasRow (0 + 1) rest = _
  rw [tableRowsGo_tail]
  by_cases h : hasRow
  · rw [if_pos ⟨rfl, h⟩, if_pos h]
  · rw [if_neg (fun hh => h hh.2), if_neg h]

/-! Congruence helpers: every gateway access of the renderer and the
walker goes through the block fetch, the image lookup, or the first
page of a children listing. -/

theorem tableRowsGo_congr (f g : Block → String) (hfg : ∀ b, f b = g b) (hasRow : Bool) :
    ∀ (l : List Block) (i : Nat), tableRowsGo f hasRow i l = tableRowsGo g hasRow i l := by
  intro l
  induction l with
  | nil => intro i; rfl
  | cons temp rest ih => intro i; simp [tableRowsGo, hfg, ih]

theorem getChildrenCall_congr (gwA gwB : Gateway)
    (hC : ∀ id, gwA.getChildrenPage id none = gwB.getChildrenPage id none) (id : String) :
    getChildrenCall gwA id = getChildrenCall gwB id := by
  unfold getChildrenCall
  rw [hC]

theorem getNumberedListNumber_congr (gwA gwB : Gateway)
    (hC : ∀ id, gwA.getChildrenPage id none = gwB.getChildrenPage id none) (b : Block) :
    getNumberedListNumber gwA b = getNumberedListNumber gwB b := by
  unfold getNumberedListNumber
  rw [getChildrenCall_congr gwA gwB hC]

theorem blockToMarkdown_congr (gwA gwB : Gateway)
    (hI : ∀ id, gwA.getImageResource id = gwB.getImageResource id)
    (hC : ∀ id, gwA.getChildrenPage id none = gwB.getChildrenPage id none) :
    ∀ (fuel : Nat) (b : Block), BlockToMarkdown gwA fuel b = BlockToMarkdown gwB fuel b := by
  intro fuel
  induction fuel with
  | zero => intro b; rfl
  | succ n ih =>
    intro b
    rcases b with ⟨bid, bpar, bhc, bty, brt, bcells, bhdr, bmu, beu, bck⟩
    cases bty
    case table =>
      simp only [BlockToMarkdown]
      rw [getChildrenCall_congr gwA gwB hC]
      cases getChildrenCall gwB bid with
      | error e => exact tableRowsGo_congr _ _ ih bhdr [] 0
      | ok rows => exact tableRowsGo_congr _ _ ih bhdr rows 0
    all_goals
      simp [BlockToMarkdown, getImageURL, hI, getNumberedListNumber_congr gwA gwB hC]

theorem foldl_children_congr (f g : Block → String) (hfg : ∀ c, f c = g c) :
    ∀ (l : List Block) (s : String),
      l.foldl (fun acc c => acc ++ f c) s = l.foldl (fun acc c => acc ++ g c) s := by
  intro l
  induction l with
  | nil => intro s; rfl
  | cons c rest ih => intro s; simp [List.foldl, hfg, ih]

theorem getBlock_congr (gwA gwB : Gateway)
    (hB : ∀ id, gwA.getBlockF id = gwB.getBlockF id)
    (hI : ∀ id, gwA.getImageResource id = gwB.getImageResource id)
    (hC : ∀ id, gwA.getChildrenPage id none = gwB.getChildrenPage id none) :
    ∀ (fuel : Nat) (id : String), getBlock gwA fuel id = getBlock gwB fuel id := by
  intro fuel
  induction fuel with
  | zero => intro id; rfl
  | succ n ih =>
    intro id
    simp only [getBlock]
    rw [hB]
    cases gwB.getBlockF id with
    | error e => rfl
    | ok b =>
      by_cases hu : b.type = BlockType.unsupported
      · simp [hu]
      · simp only [if_neg hu]
        by_cases hc : b.hasChildren = false
        · simp [hc, blockToMarkdown_congr gwA gwB hI hC]
        · simp only [if_neg hc]
          rw [getChildrenCall_congr gwA gwB hC]
          cases getChildrenCall gwB id with
          | error e => rfl
          | ok children =>
            exact congrArg Except.ok
              (foldl_children_congr _ _ (fun c => congrArg orEmpty (ih c.id)) children "")

/-! Claim theorems. -/

/-- C1 counterexample: a paragraph block that has a child.  The walker
output for the subtree of `p` is only the child fragment; the fragment
of `p` itself, which the renderer does produce, is absent, so the
output is not the fragment of the block followed by the child
subtrees. -/
theorem getBlock_omits_parent_fragment :
    getBlock gw1 2 "p" = Except.ok "World\n" ∧
    BlockToMarkdown gw1 2 pBlk = "Hello\n" ∧
    getBlock gw1 1 "c" = Except.ok "World\n" ∧
    ("World\n" : String) ≠ "Hello\n" ++ "World\n" := by decide

/-- C1 (amended): for a block without children the walker output is the
renderer fragment of the block alone; for a block with children the
walker output is the concatenation, in listing order, of the recursive
subtree outputs of the children ONLY — the fragment of the block itself
is not emitted (a failing child contributing its empty byte slice). -/
theorem getBlock_subtree_shape (gw : Gateway) (fuel : Nat) (id : String) (b : Block)
    (hb : gw.getBlockF id = Except.ok b) (hu : b.type ≠ BlockType.unsupported) :
    (b.hasChildren = false →
      getBlock gw (fuel + 1) id = Except.ok (BlockToMarkdown gw (fuel + 1) b)) ∧
    (∀ l, b.hasChildren = true → getChildrenCall gw id = Except.ok l →
      getBlock gw (fuel + 1) id =
        Except.ok (joinMap (fun c => orEmpty (getBlock gw fuel c.id)) l)) :=
  ⟨fun hc => getBlock_leaf gw fuel id b hb hu hc,
   fun l hc hl => getBlock_children gw fuel id b l hb hu hc hl⟩

/-- C1 witness: the amended claim evaluated on the concrete fixture. -/
theorem getBlock_subtree_shape_witness :
    getBlock gw1 2 "p" = Except.ok (joinMap (fun c => orEmpty (getBlock gw1 1 c.id)) [cBlk]) ∧
    getBlock gw1 1 "c" = Except.ok (BlockToMarkdown gw1 1 cBlk) := by
  constructor
  · exact (getBlock_subtree_shape gw1 1 "p" pBlk (by decide) (by decide)).2 [cBlk]
      (by decide) (by decide)
  · exact (getBlock_subtree_shape gw1 0 "c" cBlk (by decide) (by decide)).1 (by decide)

/-- C2 counterexample: the children listing of `r` has a second page
behind a continuation cursor; the fully drained listing is the two
children, but the walker output contains only the fragment of the
first-page child, so the walker does not drain the listing. -/
theorem walker_ignores_continuation_cursor :
    drainedChildrenListing gw2 3 "r" none = Except.ok [c1Blk, c2Blk] ∧
    getBlock gw2 2 "r" = Except.ok "A\n" ∧
    getBlock gw2 1 "c2" = Except.ok "B\n" ∧
    ("A\n" : String) ≠ "A\n" ++ "B\n" := by decide

/-- C2 (amended): every children listing is read with a single call
using the empty start cursor, and continuation cursors are never
followed: two gateways agreeing on block fetches, image lookups and the
FIRST page of every children listing give identical walker outputs and
identical numbered-list ordinals, whatever the later pages hold. -/
theorem walker_uses_first_page_only (gwA gwB : Gateway)
    (hB : ∀ id, gwA.getBlockF id = gwB.getBlockF id)
    (hI : ∀ id, gwA.getImageResource id = gwB.getImageResource id)
    (hC : ∀ id, gwA.getChildrenPage id none = gwB.getChildrenPage id none) :
    (∀ fuel id, getBlock gwA fuel id = getBlock gwB fuel id) ∧
    (∀ b, getNumberedListNumber gwA b = getNumberedListNumber gwB b) :=
  ⟨getBlock_congr gwA gwB hB hI hC, getNumberedListNumber_congr gwA gwB hC⟩

/-- C2 witness: `gw2b` differs from `gw2` exactly at continuation
cursors, and the walker and the ordinal computation cannot tell them
apart. -/
theorem walker_uses_first_page_only_witness :
    getBlock gw2 2 "r" = getBlock gw2b 2 "r" ∧
    getNumberedListNumber gw2 rBlk = getNumberedListNumber gw2b rBlk := by
  have h := walker_uses_first_page_only gw2 gw2b (fun _ => rfl) (fun _ => rfl) (fun _ => rfl)
  exact ⟨h.1 2 "r", h.2 rBlk⟩

/-- C3: a failure fetching the root block of the requested subtree is
returned as an error carrying that block id, while a failure inside the
subtree of one child leaves the result a success consisting of the
outputs of the siblings before and after it, the failing child
contributing nothing. -/
theorem getBlock_error_asymmetry (gw : Gateway) (fuel : Nat) :
    (∀ id e, gw.getBlockF id = Except.error e →
      getBlock gw (fuel + 1) id = Except.error ("get block " ++ (id ++ (" error: " ++ e)))) ∧
    (∀ id b l₁ bad l₂ e, gw.getBlockF id = Except.ok b → b.type ≠ BlockType.unsupported →
      b.hasChildren = true → getChildrenCall gw id = Except.ok (l₁ ++ bad :: l₂) →
      getBlock gw fuel bad.id = Except.error e →
      getBlock gw (fuel + 1) id =
        Except.ok (joinMap (fun c => orEmpty (getBlock gw fuel c.id)) l₁ ++
          joinMap (fun c => orEmpty (getBlock gw fuel c.id)) l₂)) := by
  constructor
  · intro id e h
    exact getBlock_root_error gw fuel id e h
  · intro id b l₁ bad l₂ e hb hu hc hl hbad
    rw [getBlock_children gw fuel id b _ hb hu hc hl, joinMap_append]
    simp [joinMap, orEmpty, hbad]

/-- C3 witness: three siblings, the middle one failing; its own subtree
error is the wrapped root error of that subtree, and the parent output
is the two surviving sibling fragments. -/
theorem getBlock_error_asymmetry_witness :
    getBlock gw3 1 "b3" = Except.error ("get block " ++ ("b3" ++ (" error: " ++ "boom"))) ∧
    getBlock gw3 2 "r3" =
      Except.ok (joinMap (fun c => orEmpty (getBlock gw3 1 c.id)) [aBlk] ++
        joinMap (fun c => orEmpty (getBlock gw3 1 c.id)) [cBlk3]) := by
  constructor
  · exact (getBlock_error_asymmetry gw3 0).1 "b3" "boom" (by decide)
  · exact (getBlock_error_asymmetry gw3 1).2 "r3" rootBlk3 [aBlk] bBlk [cBlk3]
      ("get block " ++ ("b3" ++ (" error: " ++ "boom")))
      (by decide) (by decide) (by decide) (by decide) (by decide)

/-- C4: when the children of the parent cannot be fetched the ordinal
defaults to 1; when they can and the target block appears in the
listing, the ordinal is 1 plus the number of numbered-list-item
siblings strictly before the first occurrence of the target id, other
kinds not counting, and the numbered-list fragment renders that
ordinal. -/
theorem numbered_ordinal_spec (gw : Gateway) (fuel : Nat) (b : Block) :
    (∀ e, getChildrenCall gw b.parentId = Except.error e → getNumberedListNumber gw b = 1) ∧
    (∀ l₁ t l₂, getChildrenCall gw b.parentId = Except.ok (l₁ ++ t :: l₂) → t.id = b.id →
      (∀ x ∈ l₁, x.id ≠ b.id) →
      getNumberedListNumber gw b =
        l₁.countP (fun c => c.type == BlockType.numberedListItem) + 1 ∧
      (b.type = BlockType.numberedListItem →
        BlockToMarkdown gw (fuel + 1) b =
          ((toString (l₁.countP (fun c => c.type == BlockType.numberedListItem) + 1) ++ ". ") ++
            b.richText) ++ "\n")) := by
  constructor
  · intro e he
    simp [getNumberedListNumber, he]
  · intro l₁ t l₂ hl ht hmem
    have hnum : getNumberedListNumber gw b =
        l₁.countP (fun c => c.type == BlockType.numberedListItem) + 1 := by
      simp only [getNumberedListNumber, hl]
      rw [numberedScan_found b.id t l₂ ht l₁ 0 hmem]
      omega
    refine ⟨hnum, fun hbt => ?_⟩
    rw [blockToMarkdown_numbered gw fuel b hbt, hnum]

/-- C4 witness: the sibling layout of the specification example
(numbered, paragraph, numbered, numbered); the middle numbered item
gets ordinal 2 and renders as such. -/
theorem numbered_ordinal_spec_witness :
    getNumberedListNumber gw4 itemB = 2 ∧ BlockToMarkdown gw4 1 itemB = "2. beta\n" := by
  have h := (numbered_ordinal_spec gw4 0 itemB).2 [itemA, paraX] itemB [itemC]
    (by decide) (by decide) (by decide)
  exact ⟨h.1.trans (by decide), (h.2 (by decide)).trans (by decide)⟩

/-- C5: a table block with the row-header flag and a first row of N
cells renders the first row, then at once the separator made of exactly
N+1 copies of the group followed by the closing pipe, then the
remaining rows in listing order. -/
theorem table_header_separator (gw : Gateway) (fuel : Nat) (tbl r0 : Block) (rest : List Block)
    (htype : tbl.type = BlockType.table) (hhdr : tbl.hasRowHeader = true)
    (hch : getChildrenCall gw tbl.id = Except.ok (r0 :: rest))
    (hr0 : r0.type = BlockType.tableRow) :
    BlockToMarkdown gw (fuel + 2) tbl =
      (("| " ++ renderCells r0.cells) ++ " |\n") ++
        ((String.join (List.replicate (r0.cells.length + 1) "| ---") ++ "|\n") ++
          joinMap (BlockToMarkdown gw (fuel + 1)) rest) := by
  rw [blockToMarkdown_table gw (fuel + 1) tbl (r0 :: rest) htype hch, hhdr, tableRowsGo_head,
    blockToMarkdown_tableRow gw fuel r0 hr0, if_pos rfl]
  simp [headerSep, String.append_assoc]

/-- C5 witness: the specification example, three columns with header
flag, giving four pipe-groups then the closing pipe. -/
theorem table_header_separator_witness :
    BlockToMarkdown gw5 2 tblBlk =
      "| h1 | h2 | h3 |\n| ---| ---| ---| ---|\n| a | b | c |\n" := by
  have h := table_header_separator gw5 0 tblBlk row0 [row1]
    (by decide) (by decide) (by decide) (by decide)
  exact h.trans (by decide)

/-- C6 counterexample: on the mocked set of the specification (page
titled Roadmap, block without resolvable title, database titled Road
Trips) with the Roadmap page repeated, the list operation returns the
Roadmap record twice — the database record is dropped, because the code
never resolves a title for a database object, and duplicates are
kept. -/
theorem getList_example_drops_database :
    GetList setC6 = [PageInfo.mk "p1" "Roadmap", PageInfo.mk "p1" "Roadmap"] ∧
    PageInfo.mk "d1" "Road Trips" ∉ GetList setC6 := by decide

/-- C6 (amended): the list operation returns, in gateway order and
without de-duplication, one record per page object whose title property
resolves to a nonempty title; block and database entries never get a
title resolved and are always dropped. -/
theorem getList_keeps_titled_pages_only (results : List SearchObject) :
    GetList results = results.filterMap specTitledPageRecord := by
  induction results with
  | nil => rfl
  | cons r rest ih =>
    cases r with
    | page id props =>
      by_cases h : resolvePageTitle props = ""
      · simp [GetList, searchEntry, specTitledPageRecord, h, ih]
      · simp [GetList, searchEntry, specTitledPageRecord, h, ih]
    | blockObj id => simp [GetList, searchEntry, specTitledPageRecord, ih]
    | database id t => simp [GetList, searchEntry, specTitledPageRecord, ih]
    | otherObj => simp [GetList, searchEntry, specTitledPageRecord, ih]

/-- The successful batch: one page record per reference, with the
original title and the walker output as content. -/
theorem getPagesContent_all_ok (gw : Gateway) (fuel : Nat) :
    ∀ refs : List PageInfo, (∀ p ∈ refs, ∃ s, getBlock gw fuel p.id = Except.ok s) →
      GetPagesContent gw fuel refs =
        Except.ok (refs.map fun p => Page.mk p.id p.title (orEmpty (getBlock gw fuel p.id))) := by
  intro refs
  induction refs with
  | nil => intro _; rfl
  | cons p rest ih =>
    intro h
    obtain ⟨s, hs⟩ := h p (List.mem_cons_self p rest)
    have hrest := fun q hq => h q (List.mem_cons_of_mem p hq)
    simp [GetPagesContent, getPageContent, hs, ih hrest, orEmpty]

/-- The failing batch: the first reference whose traversal fails turns
the whole batch into an error wrapping that page id, with no page
records. -/
theorem getPagesContent_first_error (gw : Gateway) (fuel : Nat) :
    ∀ (l₁ : List PageInfo) (p : PageInfo) (l₂ : List PageInfo) (e : String),
      (∀ q ∈ l₁, ∃ s, getBlock gw fuel q.id = Except.ok s) →
      getBlock gw fuel p.id = Except.error e →
      GetPagesContent gw fuel (l₁ ++ p :: l₂) =
        Except.error ("get Pages " ++ (p.id ++ (" error: " ++
          ("get Page " ++ (p.id ++ (" error: " ++ e)))))) := by
  intro l₁
  induction l₁ with
  | nil =>
    intro p l₂ e _ hp
    simp [GetPagesContent, getPageContent, hp]
  | cons q rest ih =>
    intro p l₂ e h hp
    obtain ⟨s, hs⟩ := h q (List.mem_cons_self q rest)
    have hrest := fun x hx => h x (List.mem_cons_of_mem q hx)
    simp [GetPagesContent, getPageContent, hs, ih p l₂ e hrest hp]

/-- C7: when every traversal succeeds the assembler returns one page
per reference with the original title preserved; the first page-level
traversal error makes the whole batch an error wrapping the offending
page id, with no partial page list. -/
theorem pages_batch_all_or_nothing (gw : Gateway) (fuel : Nat) :
    (∀ refs : List PageInfo, (∀ p ∈ refs, ∃ s, getBlock gw fuel p.id = Except.ok s) →
      GetPagesContent gw fuel refs =
        Except.ok (refs.map fun p => Page.mk p.id p.title (orEmpty (getBlock gw fuel p.id)))) ∧
    (∀ (l₁ : List PageInfo) (p : PageInfo) (l₂ : List PageInfo) (e : String),
      (∀ q ∈ l₁, ∃ s, getBlock gw fuel q.id = Except.ok s) →
      getBlock gw fuel p.id = Except.error e →
      GetPagesContent gw fuel (l₁ ++ p :: l₂) =
        Except.error ("get Pages " ++ (p.id ++ (" error: " ++
          ("get Page " ++ (p.id ++ (" error: " ++ e))))))) :=
  ⟨getPagesContent_all_ok gw fuel, getPagesContent_first_error gw fuel⟩

/-- C7 witness: a one-page batch succeeds with the title preserved; a
two-page batch whose second page fails collapses to the wrapped
error. -/
theorem pages_batch_all_or_nothing_witness :
    GetPagesContent gwP 1 [PageInfo.mk "x" "X"] = Except.ok [Page.mk "x" "X" "Xbody\n"] ∧
    GetPagesContent gwP 1 [PageInfo.mk "x" "X", PageInfo.mk "y" "Y"] =
      Except.error "get Pages y error: get Page y error: get block y error: boom" := by
  constructor
  · have h := (pages_batch_all_or_nothing gwP 1).1 [PageInfo.mk "x" "X"]
      (by
        intro p hp
        rw [List.mem_singleton] at hp
        subst hp
        exact ⟨"Xbody\n", by decide⟩)
    exact h.trans (by decide)
  · have h := (pages_batch_all_or_nothing gwP 1).2 [PageInfo.mk "x" "X"] (PageInfo.mk "y" "Y")
      [] "get block y error: boom"
      (by
        intro q hq
        rw [List.mem_singleton] at hq
        subst hq
        exact ⟨"Xbody\n", by decide⟩)
      (by decide)
    exact h.trans (by decide)

/-- C8 counterexample: a numbered-list item is a fetch-dependent kind,
and when its sibling fetch fails the renderer does not return the fetch
error message — it renders the fail-open ordinal 1 instead. -/
theorem numbered_fallback_not_error_message :
    getChildrenCall gw8 nbBlk.parentId = Except.error "boom" ∧
    BlockToMarkdown gw8 1 nbBlk = "1. Item\n" ∧
    ("1. Item\n" : String) ≠ "boom" := by decide

/-- C8 (amended): the renderer returns the empty string for
unsupported and unrecognized kinds; an image block whose resource
lookup fails renders the error message; but a numbered-list item whose
sibling fetch fails falls back to ordinal 1 rather than the error
message, and a table block whose children fetch fails has the error
discarded, rendering as an empty listing would. -/
theorem renderer_degradation (gw : Gateway) (fuel : Nat) (b : Block) :
    (b.type = BlockType.unsupported ∨ b.type = BlockType.other →
      BlockToMarkdown gw (fuel + 1) b = "") ∧
    (∀ e, b.type = BlockType.image → gw.getImageResource b.id = Except.error e →
      BlockToMarkdown gw (fuel + 1) b = e) ∧
    (∀ e, b.type = BlockType.numberedListItem →
      getChildrenCall gw b.parentId = Except.error e →
      BlockToMarkdown gw (fuel + 1) b = ("1. " ++ b.richText) ++ "\n") ∧
    (∀ e, b.type = BlockType.table → getChildrenCall gw b.id = Except.error e →
      BlockToMarkdown gw (fuel + 1) b = "") := by
  refine ⟨?_, ?_, ?_, ?_⟩
  · intro h
    exact blockToMarkdown_default gw fuel b h
  · intro e ht he
    exact blockToMarkdown_image_error gw fuel b e ht he
  · intro e ht he
    have hone : getNumberedListNumber gw b = 1 := by simp [getNumberedListNumber, he]
    have hpre : (toString (1 : Nat) ++ ". ") = "1. " := by decide
    rw [blockToMarkdown_numbered gw fuel b ht, hone, hpre]
  · intro e ht he
    exact blockToMarkdown_table_error gw fuel b e ht he

/-- C8 witness: the three degradation modes evaluated on fixtures. -/
theorem renderer_degradation_witness :
    BlockToMarkdown gw8 1 nbBlk = "1. Item\n" ∧
    BlockToMarkdown gw9e 1 imgBlk = "lookup failed" ∧
    BlockToMarkdown gw8 1 tblBlk = "" := by
  refine ⟨?_, ?_, ?_⟩
  · exact ((renderer_degradation gw8 0 nbBlk).2.2.1 "boom" (by decide) (by decide)).trans
      (by decide)
  · exact (renderer_degradation gw9e 0 imgBlk).2.1 "lookup failed" (by decide) (by decide)
  · exact (renderer_degradation gw8 0 tblBlk).2.2.2 "boom" (by decide) (by decide)

/-- C9: an image block renders through the dedicated raw-resource
lookup of the gateway — the block fetch plays no part — giving exactly
the image markup with empty alt text and a trailing newline on success,
and exactly the error message text on failure. -/
theorem image_render_uses_raw_lookup (gw : Gateway) (fuel : Nat) (b : Block)
    (hb : b.type = BlockType.image) :
    BlockToMarkdown gw (fuel + 1) b =
      (match gw.getImageResource b.id with
       | Except.ok u => ("![](" ++ u) ++ ")\n"
       | Except.error e => e) := by
  cases hres : gw.getImageResource b.id with
  | error e => rw [blockToMarkdown_image_error gw fuel b e hb hres]
  | ok u => rw [blockToMarkdown_image_ok gw fuel b u hb hres]

/-- C9 witness: the specification example url and a failing lookup. -/
theorem image_render_uses_raw_lookup_witness :
    BlockToMarkdown gw9 1 imgBlk = "![](https://x/y.png)\n" ∧
    BlockToMarkdown gw9e 1 imgBlk = "lookup failed" := by
  constructor
  · exact (image_render_uses_raw_lookup gw9 0 imgBlk (by decide)).trans (by decide)
  · exact (image_render_uses_raw_lookup gw9e 0 imgBlk (by decide)).trans (by decide)

/-- C10: when the children fetch succeeds but the target id is absent
from the returned listing, the ordinal computation returns the total
count of numbered-list items in the listing, not a 1-based ordinal and
not the fail-open default. -/
theorem numbered_absent_target_count (gw : Gateway) (b : Block) (l : List Block)
    (hl : getChildrenCall gw b.parentId = Except.ok l)
    (hmem : ∀ x ∈ l, x.id ≠ b.id) :
    getNumberedListNumber gw b = l.countP (fun c => c.type == BlockType.numberedListItem) := by
  simp only [getNumberedListNumber, hl]
  rw [numberedScan_not_found b.id l 0 hmem]
  omega

/-- C10 witness: a listing without the target and without numbered
items gives ordinal 0. -/
theorem numbered_absent_target_count_witness :
    getNumberedListNumber gw10 tBlk10 = 0 := by
  have h := numbered_absent_target_count gw10 tBlk10 [pxBlk] (by decide) (by decide)
  exact h.trans (by decide)

end NotionMd
